import Mathlib

/-!
# Verification of splinter core claims

Shallow embedding of the splinter repository's Rust sources:

* `src/libsplinter/src/service/scabbard/factory.rs` (`ScabbardFactory`)
* `src/libsplinter/src/biome/rest_api/auth/oauth.rs` (`GetUserByOAuthAuthorization`)
* `src/splinterd/src/daemon.rs` (`SplinterDaemon::start`, `SplinterDaemonBuilder::build`,
  accept loops, inproc authorizer wiring, shutdown sequencing, store/registry setup)
* `src/cli/src/action/keygen.rs` (`create_key_pair`)

External crates (`serde_json`, `cylinder`, the OS filesystem) and repository
modules not present under `src/` (e.g. `Scabbard::new`, the session store) are
represented as oracle parameters, so every theorem quantifies over their
behaviour.
-/

namespace Splinter

/-! ## Scabbard factory (`src/libsplinter/src/service/scabbard/factory.rs`) -/

/-- `SERVICE_TYPE` from the scabbard module (`super::SERVICE_TYPE`); the daemon
registers the scabbard validator under the string "scabbard"
(`daemon.rs`, `validators.insert("scabbard".into(), ...)`). -/
def SERVICE_TYPE : String := "scabbard"

/-- `const DEFAULT_DB_DIR: &str = "/var/lib/splinter";` -/
def DEFAULT_DB_DIR : String := "/var/lib/splinter"

/-- `const DEFAULT_DB_SIZE: usize = 1028 * 1028 * 1028;` -/
def DEFAULT_DB_SIZE : Nat := 1028 * 1028 * 1028

/-- `pub struct ScabbardFactory { service_types: Vec<String>, db_dir: String, db_size: usize }` -/
structure ScabbardFactory where
  service_types : List String
  db_dir : String
  db_size : Nat
  deriving Repr, DecidableEq

namespace ScabbardFactory

/-- `ScabbardFactory::new(db_dir: Option<String>, db_size: Option<usize>)`. -/
def new (db_dir : Option String) (db_size : Option Nat) : ScabbardFactory :=
  { service_types := [SERVICE_TYPE]
    db_dir := db_dir.getD DEFAULT_DB_DIR
    db_size := db_size.getD DEFAULT_DB_SIZE }

/-- `fn available_service_types(&self) -> &[String] { self.service_types.as_slice() }` -/
def available_service_types (self : ScabbardFactory) : List String :=
  self.service_types

end ScabbardFactory

/-- `FactoryCreateError` from `crate::service`; `CreationFailed` boxes the
underlying error, abstracted by the type `ε`. -/
inductive FactoryCreateError (ε : Type) where
  | invalidArguments (msg : String)
  | creationFailed (err : ε)
  deriving Repr, DecidableEq

namespace ScabbardFactory

/-- `ScabbardFactory::create`.  The external pieces are oracle parameters:
`fromStr` is `serde_json::from_str::<Vec<String>>` (its `Err` carries the
serde error text), and `scabbardNew` is `Scabbard::new(service_id,
initial_peers, db_dir, db_size, admin_keys)` from the scabbard module (not
under `src/`); `HashSet::from_iter(peer_services)` is absorbed into that
oracle.  `args` is the `HashMap<String, String>` viewed as a partial map. -/
def create {ε σ : Type}
    (fromStr : String → Except String (List String))
    (scabbardNew : String → List String → String → Nat → List String → Except ε σ)
    (self : ScabbardFactory)
    (service_id : String)
    (peer_services : List String)
    (args : String → Option String) :
    Except (FactoryCreateError ε) σ :=
  match args "admin_keys" with
  | none =>
    Except.error (FactoryCreateError.invalidArguments
      "admin_keys argument not specified")
  | some admin_keys_str =>
    match fromStr admin_keys_str with
    | Except.error err =>
      Except.error (FactoryCreateError.invalidArguments
        ("failed to parse admin_keys list: " ++ err))
    | Except.ok admin_keys =>
      match scabbardNew service_id peer_services self.db_dir self.db_size admin_keys with
      | Except.ok service => Except.ok service
      | Except.error err => Except.error (FactoryCreateError.creationFailed err)

end ScabbardFactory

/-! ## Network listener accept loop (`daemon.rs` lines 407-439) -/

/-- `AcceptError` from `splinter::transport`: protocol-level rejection vs. I/O
failure. -/
inductive AcceptError where
  | protocolError (msg : String)
  | ioError (msg : String)
  deriving Repr, DecidableEq

/-- The body of the thread spawned per network listener in
`SplinterDaemon::start`: it walks `network_listener.incoming()`, on
`Err(AcceptError::ProtocolError(msg))` it warns and `continue`s, on
`Err(AcceptError::IoError(err))` it warns and `continue`s, on `Ok(connection)`
it calls `add_inbound_connection`; if that fails it logs and `break`s out of
the loop.  Connections are abstracted by `κ`; the incoming sequence is given
as a list of accept results and `addInbound` is the connection connector's
`add_inbound_connection`.  The result is the list of connections handed to the
connection manager, in order. -/
def networkListenerLoop {κ : Type} (addInbound : κ → Except String Unit) :
    List (Except AcceptError κ) → List κ
  | [] => []
  | Except.ok c :: rest =>
    match addInbound c with
    | Except.ok _ => c :: networkListenerLoop addInbound rest
    | Except.error _ => []
  | Except.error (AcceptError.protocolError _) :: rest =>
    networkListenerLoop addInbound rest
  | Except.error (AcceptError.ioError _) :: rest =>
    networkListenerLoop addInbound rest

/-- Spec-side description of the accept loop used for the amended C1: the
connections added are exactly the `Ok` connections of the incoming sequence up
to (and excluding) the first one rejected by `add_inbound_connection`; accept
errors of either kind are passed over. -/
def acceptedConnections {κ : Type} (addInbound : κ → Except String Unit) :
    List κ → List κ
  | [] => []
  | c :: cs =>
    match addInbound c with
    | Except.ok _ => c :: acceptedConnections addInbound cs
    | Except.error _ => []

/-! ## Shutdown sequencing (`daemon.rs` lines 674-718) -/

/-- The daemon components acted on during shutdown. -/
inductive ShutdownStep where
  | adminService
  | restApi
  | circuitDispatchLoop
  | networkDispatchLoop
  | registry
  | interconnect
  | healthService
  | orchestrator
  | peerManager
  | adminNotification
  | connectionManager
  | mesh
  deriving Repr, DecidableEq

/-- Order in which the ctrl-c handler signals shutdown (`daemon.rs` 674-690):
`admin_shutdown_handle.shutdown()`, `rest_api_shutdown_handle.shutdown()`,
`circuit_dispatcher_shutdown.shutdown()`, `network_dispatcher_shutdown.shutdown()`,
`registry_shutdown.shutdown()`, `interconnect_shutdown.shutdown()`. -/
def ctrlcHandlerShutdownOrder : List ShutdownStep :=
  [ShutdownStep.adminService, ShutdownStep.restApi,
   ShutdownStep.circuitDispatchLoop, ShutdownStep.networkDispatchLoop,
   ShutdownStep.registry, ShutdownStep.interconnect]

/-- Order in which the main thread then joins/shuts down components
(`daemon.rs` 692-718): the health processor join (only with the `health`
feature), `rest_api_join_handle.join()`, the admin `service_processor_join_handle`,
`orchestator_join_handles`, `peer_manager_shutdown.shutdown()` and
`peer_manager.await_shutdown()`, `admin_notification_join.join()`,
`connection_manager_shutdown.shutdown()` and `await_shutdown()`, and finally
`self.mesh.shutdown_signaler().shutdown()`. -/
def mainThreadJoinOrder (healthEnabled : Bool) : List ShutdownStep :=
  (if healthEnabled then [ShutdownStep.healthService] else []) ++
  [ShutdownStep.restApi, ShutdownStep.adminService, ShutdownStep.orchestrator,
   ShutdownStep.peerManager, ShutdownStep.adminNotification,
   ShutdownStep.connectionManager, ShutdownStep.mesh]

/-- The full sequence of shutdown actions at daemon exit: the ctrl-c handler
runs first (SIGINT), then the blocked main thread completes its join/shutdown
sequence.  A component's shutdown is initiated at its first occurrence. -/
def daemonExitSequence (healthEnabled : Bool) : List ShutdownStep :=
  ctrlcHandlerShutdownOrder ++ mainThreadJoinOrder healthEnabled

/-- `a` is shut down before `b` in sequence `s` (first occurrences). -/
def shutdownBefore (s : List ShutdownStep) (a b : ShutdownStep) : Prop :=
  a ∈ s ∧ b ∈ s ∧ s.indexOf a < s.indexOf b

instance (s : List ShutdownStep) (a b : ShutdownStep) :
    Decidable (shutdownBefore s a b) := by
  unfold shutdownBefore; infer_instance

/-! ## Inproc service wiring (`daemon.rs` lines 258-293 and 328-356) -/

/-- The inproc URIs on which `SplinterDaemon::start` sets up internal service
connections: the listeners (`transport.listen("inproc://admin-service")`,
`transport.listen("inproc://orchestator")`, and with the `health` feature
`transport.listen("inproc://health_service")`), matched by the
`service_transport.connect` calls on the same three URIs. -/
def internalServiceURIs (healthEnabled : Bool) : List String :=
  ["inproc://admin-service", "inproc://orchestator"] ++
    (if healthEnabled then ["inproc://health_service"] else [])

/-- `admin_service_id` from `splinter::admin::service` (not under `src/`).
Modelled from the spec: the admin service identity derived from the node id;
the mapped identity's exact shape is irrelevant to the claims, only the URI
keys matter. -/
def admin_service_id (node_id : String) : String :=
  "admin::" ++ node_id

/-- The `inproc_ids` vector handed to `InprocAuthorizer::new` (`daemon.rs`
271-289): `("inproc://orchestator", format!("orchestator::{}", node_id))`,
`("inproc://admin-service", admin_service_id(node_id))`, and with the `health`
feature `("inproc://health-service", format!("health::{}", node_id))`. -/
def inproc_ids (healthEnabled : Bool) (node_id : String) : List (String × String) :=
  [("inproc://orchestator", "orchestator::" ++ node_id),
   ("inproc://admin-service", admin_service_id node_id)] ++
    (if healthEnabled then [("inproc://health-service", "health::" ++ node_id)] else [])

/-- The static identity mapping of the `InprocAuthorizer` is keyed by the first
components of `inproc_ids`. -/
def inprocAuthorizerKeys (healthEnabled : Bool) (node_id : String) : List String :=
  (inproc_ids healthEnabled node_id).map Prod.fst

/-! ## Storage selection and registry (`daemon.rs` lines 166-226, 1290-1311) -/

/-- `StartError` (`daemon.rs` 1444-1457); the `registry-database` and `health`
feature-gated variants are included. -/
inductive StartError where
  | transportError (msg : String)
  | networkError (msg : String)
  | storageError (msg : String)
  | protocolError (msg : String)
  | restApiError (msg : String)
  | registryError (msg : String)
  | adminServiceError (msg : String)
  | healthServiceError (msg : String)
  | orchestratorError (msg : String)
  deriving Repr, DecidableEq

/-- `Path::new(dir).join(file)` for a relative `file` name: pushes `file` onto
`dir`, inserting a separator unless `dir` already ends with one or is empty. -/
def pathJoin (dir file : String) : String :=
  if dir = "" then file
  else if dir.data.getLast? = some '/' then dir ++ file
  else dir ++ "/" ++ file

/-- Which admin service store `SplinterDaemon::start` builds, recording the
backing files chosen. -/
inductive AdminServiceStoreConfig where
  | yaml (circuits_location : String) (proposals_location : String)
  | memoryFactory
  deriving Repr, DecidableEq

/-- The `admin_service_store` selection in `SplinterDaemon::start`
(`daemon.rs` 166-226), compiled without the `database` feature.  With
`storage_type = Some("yaml")` the `YamlAdminServiceStore` is built from
`state_dir.join("circuits.yaml")` and `state_dir.join("circuit_proposals.yaml")`;
with `Some("memory")` the in-memory store factory's store is used; any other
`Some(storage)` returns `StartError::StorageError` (propagated with `?`, so
startup aborts); `None` without the `database` feature is also a
`StorageError`.  The fallible `YamlAdminServiceStore::new` (external I/O) and
the UTF-8 check on the paths are outside the model; the selection records the
exact file locations handed to the store constructor. -/
def adminServiceStoreSelection (storage_type : Option String) (state_dir : String) :
    Except StartError AdminServiceStoreConfig :=
  match storage_type with
  | some storage =>
    if storage = "yaml" then
      Except.ok (AdminServiceStoreConfig.yaml
        (pathJoin state_dir "circuits.yaml")
        (pathJoin state_dir "circuit_proposals.yaml"))
    else if storage = "memory" then
      Except.ok AdminServiceStoreConfig.memoryFactory
    else
      Except.error (StartError.storageError ("storage type is not supported: " ++ storage))
  | none =>
    Except.error (StartError.storageError "No supported state configuration provided")

/-- A `LocalYamlRegistry`, recorded by the file it is backed by. -/
structure LocalYamlRegistry where
  file : String
  deriving Repr, DecidableEq

/-- `create_local_registry` (`daemon.rs` 1290-1311, without the
`registry-database` feature): builds a `LocalYamlRegistry` on
`state_dir.join("local_registry.yaml")`; the external fallible
`LocalYamlRegistry::new` is the oracle `localYamlRegistryNew`, whose error is
wrapped in `StartError::RegistryError`. -/
def create_local_registry (localYamlRegistryNew : String → Except String Unit)
    (state_dir : String) : Except StartError LocalYamlRegistry :=
  let local_registry_path := pathJoin state_dir "local_registry.yaml"
  match localYamlRegistryNew local_registry_path with
  | Except.ok _ => Except.ok { file := local_registry_path }
  | Except.error err =>
    Except.error (StartError.registryError
      ("Failed to initialize local LocalYamlRegistry: " ++ err))

/-! ## Daemon builder (`daemon.rs` lines 937-1233) -/

/-- `CreateError` (`daemon.rs` 1429-1432). -/
inductive CreateError where
  | missingRequiredField (msg : String)
  deriving Repr, DecidableEq

/-- `splinter::mesh::Mesh` (not under `src/`), recorded by the capacities
passed to `Mesh::new(incoming_capacity, outgoing_capacity)`. -/
structure Mesh where
  incoming_capacity : Nat
  outgoing_capacity : Nat
  deriving Repr, DecidableEq

/-- `Mesh::new`. -/
def Mesh.new (incoming_capacity outgoing_capacity : Nat) : Mesh :=
  { incoming_capacity, outgoing_capacity }

/-- `SplinterDaemon` (`daemon.rs` 93-129), compiled with no optional features
(`service-endpoint`, `https-bind`, `database`, biome, CORS and OAuth fields
are feature-gated out).  `Duration` is modelled as a `Nat`. -/
structure SplinterDaemon where
  state_dir : String
  network_endpoints : List String
  advertised_endpoints : List String
  initial_peers : List String
  mesh : Mesh
  node_id : String
  display_name : String
  rest_api_endpoint : String
  registries : List String
  registry_auto_refresh : Nat
  registry_forced_refresh : Nat
  storage_type : Option String
  admin_timeout : Nat
  heartbeat : Nat
  strict_ref_counts : Bool
  deriving Repr, DecidableEq

/-- `SplinterDaemonBuilder` (`daemon.rs` 937-975) with the same feature set;
`registries` and `admin_timeout` are plain fields with defaults, all others
are `Option`s. -/
structure SplinterDaemonBuilder where
  state_dir : Option String := none
  network_endpoints : Option (List String) := none
  advertised_endpoints : Option (List String) := none
  initial_peers : Option (List String) := none
  node_id : Option String := none
  display_name : Option String := none
  rest_api_endpoint : Option String := none
  registries : List String := []
  registry_auto_refresh : Option Nat := none
  registry_forced_refresh : Option Nat := none
  storage_type : Option String := none
  heartbeat : Option Nat := none
  admin_timeout : Nat := 0
  strict_ref_counts : Option Bool := none
  deriving Repr, DecidableEq

namespace SplinterDaemonBuilder

/-- `SplinterDaemonBuilder::build` (`daemon.rs` 1118-1233): each required field
is taken with `ok_or_else(CreateError::MissingRequiredField)` in source order
(heartbeat, node_id, then `Mesh::new(512, 128)`, state_dir, network_endpoints,
advertised_endpoints, initial_peers, display_name, rest_api_endpoint,
registry_auto_refresh, registry_forced_refresh, strict_ref_counts);
`registries`, `storage_type` and `admin_timeout` are passed through. -/
def build (self : SplinterDaemonBuilder) : Except CreateError SplinterDaemon :=
  match self.heartbeat with
  | none => Except.error (CreateError.missingRequiredField "Missing field: heartbeat")
  | some heartbeat =>
  match self.node_id with
  | none => Except.error (CreateError.missingRequiredField "Missing field: node_id")
  | some node_id =>
  let mesh := Mesh.new 512 128
  match self.state_dir with
  | none => Except.error (CreateError.missingRequiredField "Missing field: state_dir")
  | some state_dir =>
  match self.network_endpoints with
  | none => Except.error (CreateError.missingRequiredField "Missing field: network_endpoints")
  | some network_endpoints =>
  match self.advertised_endpoints with
  | none => Except.error (CreateError.missingRequiredField "Missing field: advertised_endpoints")
  | some advertised_endpoints =>
  match self.initial_peers with
  | none => Except.error (CreateError.missingRequiredField "Missing field: initial_peers")
  | some initial_peers =>
  match self.display_name with
  | none => Except.error (CreateError.missingRequiredField "Missing field: display_name")
  | some display_name =>
  match self.rest_api_endpoint with
  | none => Except.error (CreateError.missingRequiredField "Missing field: rest_api_endpoint")
  | some rest_api_endpoint =>
  match self.registry_auto_refresh with
  | none => Except.error (CreateError.missingRequiredField "Missing field: registry_auto_refresh")
  | some registry_auto_refresh =>
  match self.registry_forced_refresh with
  | none => Except.error (CreateError.missingRequiredField "Missing field: registry_forced_refresh")
  | some registry_forced_refresh =>
  let storage_type := self.storage_type
  match self.strict_ref_counts with
  | none => Except.error (CreateError.missingRequiredField "Missing field: strict_ref_counts")
  | some strict_ref_counts =>
  Except.ok
    { state_dir, network_endpoints, advertised_endpoints, initial_peers, mesh,
      node_id, display_name, rest_api_endpoint, registries := self.registries,
      registry_auto_refresh, registry_forced_refresh, storage_type,
      admin_timeout := self.admin_timeout, heartbeat, strict_ref_counts }

end SplinterDaemonBuilder

/-! ## CLI key generation (`src/cli/src/action/keygen.rs`, `action/mod.rs`) -/

/-- `CliError` variants used by the CLI actions under `src/cli`. -/
inductive CliError where
  | requiresArgs
  | invalidSubcommand
  | environmentError (msg : String)
  | actionError (msg : String)
  deriving Repr, DecidableEq

/-- Per-file state: contents, unix mode bits and `(uid, gid)` owner. -/
structure FileState where
  contents : String
  mode : Nat
  owner : Nat × Nat
  deriving Repr, DecidableEq

/-- The filesystem visible to `create_key_pair`: a partial map from paths to
file states and a partial map from directory paths to the `(uid, gid)`
returned by `metadata()`. -/
structure Fs where
  files : String → Option FileState
  dirs : String → Option (Nat × Nat)

/-- Replace (or create) the file at `path`. -/
def Fs.setFile (fs : Fs) (path : String) (f : FileState) : Fs :=
  { fs with files := fun q => if q = path then some f else fs.files q }

/-- `chown` from `src/cli/src/action/mod.rs`: `libc::chown` succeeds when the
path exists, setting its owner; a non-zero return code becomes
`CliError::EnvironmentError`.  (`CString::new` interior-NUL failure is outside
the string model.) -/
def chown (fs : Fs) (path : String) (uid gid : Nat) : Except CliError Fs :=
  match fs.files path with
  | some f => Except.ok (fs.setFile path { f with owner := (uid, gid) })
  | none =>
    Except.error (CliError.environmentError ("Error chowning file " ++ path))

/-- Writing `text` followed by a newline from offset 0 of a file opened with
`OpenOptions::new().write(true).create(true)` — no `truncate`, so an existing
longer file keeps its tail. -/
def writeAtStart (old text : String) : String :=
  let written := text ++ "\n"
  written ++ old.drop written.length

/-- Open-with-create followed by `writeln!`: an existing file keeps its mode
and owner and is overwritten from offset 0; a new file is created with the
given mode, owned by the calling process (`processOwner`). -/
def openCreateWriteln (fs : Fs) (path : String) (mode : Nat)
    (processOwner : Nat × Nat) (text : String) : Fs :=
  match fs.files path with
  | some f => fs.setFile path { f with contents := writeAtStart f.contents text }
  | none => fs.setFile path { contents := text ++ "\n", mode, owner := processOwner }

/-- `create_key_pair` from `src/cli/src/action/keygen.rs`.  The cylinder
signing context is external: `priv_hex` stands for
`context.new_random_private_key().as_hex()` and `getPublicKey` for
`context.get_public_key(..).map(as_hex)` (its `Err` becomes
`CliError::ActionError`).  OS-level open/write failures are outside the model;
`metadata(key_dir)` fails (as `EnvironmentError`) when `key_dir` is not in
`fs.dirs`.  Returns the result (`Ok` carries the public key hex, standing for
its bytes) together with the filesystem after the call. -/
def create_key_pair (fs : Fs) (key_dir private_key_path public_key_path : String)
    (force_create change_permissions : Bool)
    (priv_hex : String) (getPublicKey : Except String String)
    (processOwner : Nat × Nat) : Except CliError String × Fs :=
  if !force_create ∧ (fs.files private_key_path).isSome then
    (Except.error (CliError.environmentError
      ("File already exists: " ++ private_key_path)), fs)
  else if !force_create ∧ (fs.files public_key_path).isSome then
    (Except.error (CliError.environmentError
      ("File already exists: " ++ public_key_path)), fs)
  else
    match getPublicKey with
    | Except.error err =>
      (Except.error (CliError.actionError ("Failed to get public key: " ++ err)), fs)
    | Except.ok pub_hex =>
      match fs.dirs key_dir with
      | none =>
        (Except.error (CliError.environmentError
          ("Failed to read key directory " ++ key_dir)), fs)
      | some keyDirOwner =>
        let fs := openCreateWriteln fs private_key_path 0o640 processOwner priv_hex
        let fs := openCreateWriteln fs public_key_path 0o644 processOwner pub_hex
        if change_permissions then
          match chown fs private_key_path keyDirOwner.1 keyDirOwner.2 with
          | Except.error e => (Except.error e, fs)
          | Except.ok fs =>
            match chown fs public_key_path keyDirOwner.1 keyDirOwner.2 with
            | Except.error e => (Except.error e, fs)
            | Except.ok fs => (Except.ok pub_hex, fs)
        else
          (Except.ok pub_hex, fs)

/-! ## Biome OAuth authorization mapping
(`src/libsplinter/src/biome/rest_api/auth/oauth.rs`) -/

/-- `BearerToken` from `splinter::rest_api::auth` (not under `src/`): the
`OAuth2` variant carries the access token; the remaining variants (Cylinder
JWT, Biome JWT, custom) are collapsed into `other`, since
`GetUserByOAuthAuthorization::get` treats them all through its `_` arm. -/
inductive BearerToken where
  | oauth2 (token : String)
  | other (kind : String) (token : String)
  deriving Repr, DecidableEq

/-- `AuthorizationHeader` from `splinter::rest_api::auth` (not under `src/`):
a `Bearer` token or a custom header. -/
inductive AuthorizationHeader where
  | bearer (token : BearerToken)
  | custom (header : String)
  deriving Repr, DecidableEq

/-- A stored OAuth user session, as seen through
`session.user().user_id()`. -/
structure OAuthUserSession where
  user_id : String
  deriving Repr, DecidableEq

/-- `splinter::biome::rest_api::resources::User`, built with
`User::new(user_id)`. -/
structure User where
  user_id : String
  deriving Repr, DecidableEq

/-- `InternalError::from_source_with_message`, with the boxed source error
abstracted by `ε`. -/
inductive InternalError (ε : Type) where
  | fromSourceWithMessage (source : ε) (message : String)
  deriving Repr, DecidableEq

/-- `GetUserByOAuthAuthorization::get`: on a `Bearer(OAuth2(access_token))`
header it consults the session store (`get_session`, the oracle `store`,
whose error type is `ε`), maps a found session to
`User::new(session.user().user_id())` and a store error to
`InternalError::from_source_with_message(.., "Unable to load oauth session")`;
every other header yields `Ok(None)`. -/
def GetUserByOAuthAuthorization.get {ε : Type}
    (store : String → Except ε (Option OAuthUserSession))
    (authorization : AuthorizationHeader) :
    Except (InternalError ε) (Option User) :=
  match authorization with
  | AuthorizationHeader.bearer (BearerToken.oauth2 access_token) =>
    match store access_token with
    | Except.ok opt_session =>
      Except.ok (opt_session.map fun session => { user_id := session.user_id })
    | Except.error e =>
      Except.error (InternalError.fromSourceWithMessage e "Unable to load oauth session")
  | _ => Except.ok none

/-! ## Theorems -/

/-- Connection carried by a successful accept result. -/
def acceptResultConnection {κ : Type} : Except AcceptError κ → Option κ
  | Except.ok c => some c
  | Except.error _ => none

/-- C1 counterexample: the claim says an I/O accept error terminates the
listener's loop, i.e. nothing after the first `IoError` in the incoming
sequence is processed.  With an always-succeeding `add_inbound_connection`,
the incoming sequence `[Err(IoError), Ok(connection 0)]` still hands
connection `0` to the connection manager, so the loop advanced past the
`IoError`. -/
theorem network_listener_io_error_terminates_refuted :
    ¬ (∀ (addInbound : Nat → Except String Unit)
        (pre post : List (Except AcceptError Nat)) (msg : String),
        networkListenerLoop addInbound
            (pre ++ Except.error (AcceptError.ioError msg) :: post) =
          networkListenerLoop addInbound pre) := by
  intro h
  have h0 := h (fun _ => Except.ok ()) [] [Except.ok 0] "io"
  simp [networkListenerLoop] at h0

/-- C1 amended: in the accept loop, a protocol-level accept error and an I/O
accept error are both logged and the loop advances to the next incoming
connection; the loop terminates only when `add_inbound_connection` fails.
Formally, the connections handed to the connection manager are exactly the
`Ok` connections of the incoming sequence, taken in order up to (and
excluding) the first one rejected by `add_inbound_connection`, with accept
errors of either kind skipped. -/
theorem network_listener_loop_advances_on_accept_errors {κ : Type}
    (addInbound : κ → Except String Unit)
    (incoming : List (Except AcceptError κ)) :
    networkListenerLoop addInbound incoming =
      acceptedConnections addInbound (incoming.filterMap acceptResultConnection) := by
  induction incoming with
  | nil => rfl
  | cons r rest ih =>
    cases r with
    | ok c =>
      cases h : addInbound c with
      | ok u =>
        simp [networkListenerLoop, acceptedConnections, acceptResultConnection, h, ih]
      | error e =>
        simp [networkListenerLoop, acceptedConnections, acceptResultConnection, h]
    | error e =>
      cases e with
      | protocolError m =>
        simp [networkListenerLoop, acceptResultConnection, ih]
      | ioError m =>
        simp [networkListenerLoop, acceptResultConnection, ih]

/-- Ordering asserted by the claim C2, as a predicate on a shutdown sequence:
REST API first, then admin service, then orchestrator, then peer manager,
then connection manager, then the dispatch loops, then the Mesh. -/
def claimedShutdownOrder (s : List ShutdownStep) : Prop :=
  shutdownBefore s ShutdownStep.restApi ShutdownStep.adminService ∧
  shutdownBefore s ShutdownStep.adminService ShutdownStep.orchestrator ∧
  shutdownBefore s ShutdownStep.orchestrator ShutdownStep.peerManager ∧
  shutdownBefore s ShutdownStep.peerManager ShutdownStep.connectionManager ∧
  shutdownBefore s ShutdownStep.connectionManager ShutdownStep.circuitDispatchLoop ∧
  shutdownBefore s ShutdownStep.connectionManager ShutdownStep.networkDispatchLoop ∧
  shutdownBefore s ShutdownStep.circuitDispatchLoop ShutdownStep.mesh ∧
  shutdownBefore s ShutdownStep.networkDispatchLoop ShutdownStep.mesh

instance (s : List ShutdownStep) : Decidable (claimedShutdownOrder s) := by
  unfold claimedShutdownOrder; infer_instance

/-- C2 counterexample: the daemon's exit sequence does not satisfy the claimed
ordering, with or without the `health` feature: the ctrl-c handler signals the
admin service before the REST API, and signals the dispatch loops before the
main thread shuts down the peer and connection managers. -/
theorem daemon_shutdown_claimed_order_refuted :
    (decide (claimedShutdownOrder (daemonExitSequence false)) = false) ∧
    (decide (claimedShutdownOrder (daemonExitSequence true)) = false) := by
  constructor <;> rfl

/-- C2 amended: at daemon exit the ctrl-c handler signals shutdown of the
admin service first, then the REST API, then the circuit and network dispatch
loops, then the registry, then the peer interconnect; the main thread then
joins the REST API and admin service processor, joins the orchestrator, shuts
down the peer manager, the admin notification receiver, the connection
manager, and finally the Mesh (which is last).  In particular, the admin
service is signalled before the REST API, and the dispatch loops are shut
down before the peer and connection managers — not after. -/
theorem daemon_shutdown_order_spec (healthEnabled : Bool) :
    shutdownBefore (daemonExitSequence healthEnabled)
      ShutdownStep.adminService ShutdownStep.restApi ∧
    shutdownBefore (daemonExitSequence healthEnabled)
      ShutdownStep.restApi ShutdownStep.circuitDispatchLoop ∧
    shutdownBefore (daemonExitSequence healthEnabled)
      ShutdownStep.circuitDispatchLoop ShutdownStep.networkDispatchLoop ∧
    shutdownBefore (daemonExitSequence healthEnabled)
      ShutdownStep.networkDispatchLoop ShutdownStep.registry ∧
    shutdownBefore (daemonExitSequence healthEnabled)
      ShutdownStep.registry ShutdownStep.interconnect ∧
    shutdownBefore (daemonExitSequence healthEnabled)
      ShutdownStep.interconnect ShutdownStep.orchestrator ∧
    shutdownBefore (daemonExitSequence healthEnabled)
      ShutdownStep.orchestrator ShutdownStep.peerManager ∧
    shutdownBefore (daemonExitSequence healthEnabled)
      ShutdownStep.peerManager ShutdownStep.adminNotification ∧
    shutdownBefore (daemonExitSequence healthEnabled)
      ShutdownStep.adminNotification ShutdownStep.connectionManager ∧
    shutdownBefore (daemonExitSequence healthEnabled)
      ShutdownStep.connectionManager ShutdownStep.mesh ∧
    shutdownBefore (daemonExitSequence healthEnabled)
      ShutdownStep.circuitDispatchLoop ShutdownStep.peerManager ∧
    shutdownBefore (daemonExitSequence healthEnabled)
      ShutdownStep.networkDispatchLoop ShutdownStep.connectionManager ∧
    (daemonExitSequence healthEnabled).getLast? = some ShutdownStep.mesh := by
  cases healthEnabled <;> decide

/-- C3 refutation (code bug): with the `health` feature enabled, the daemon
listens and connects on `inproc://health_service` (underscore), but the
`InprocAuthorizer`'s static identity mapping is keyed on
`inproc://health-service` (hyphen), so the health service's inproc URI is not
a key of the mapping; the admin service and orchestrator URIs are covered,
and without the `health` feature every internal URI is a key. -/
theorem inproc_health_uri_not_in_authorizer_keys (node_id : String) :
    "inproc://health_service" ∈ internalServiceURIs true ∧
    ((inprocAuthorizerKeys true node_id).contains "inproc://health_service") = false ∧
    ((inprocAuthorizerKeys true node_id).contains "inproc://health-service") = true ∧
    ((internalServiceURIs true).all
      (fun uri => (inprocAuthorizerKeys true node_id).contains uri)) = false ∧
    ((internalServiceURIs false).all
      (fun uri => (inprocAuthorizerKeys false node_id).contains uri)) = true := by
  have hkeys : inprocAuthorizerKeys true node_id =
      ["inproc://orchestator", "inproc://admin-service", "inproc://health-service"] := rfl
  have hkeys0 : inprocAuthorizerKeys false node_id =
      ["inproc://orchestator", "inproc://admin-service"] := rfl
  refine ⟨by decide, ?_, ?_, ?_, ?_⟩
  · rw [hkeys]; decide
  · rw [hkeys]; decide
  · rw [hkeys]; decide
  · rw [hkeys0]; decide

/-- C5: `ScabbardFactory::new(db_dir, None)` sets `db_size` to the constant
`DEFAULT_DB_SIZE = 1028 * 1028 * 1028`, which is exactly `1086373952` and not
`1024 * 1024 * 1024`; `new(db_dir, Some n)` sets `db_size` to `n`. -/
theorem scabbard_factory_db_size_spec (db_dir : Option String) :
    (ScabbardFactory.new db_dir none).db_size = DEFAULT_DB_SIZE ∧
    DEFAULT_DB_SIZE = 1028 * 1028 * 1028 ∧
    DEFAULT_DB_SIZE = 1086373952 ∧
    DEFAULT_DB_SIZE ≠ 1024 * 1024 * 1024 ∧
    ∀ n : Nat, (ScabbardFactory.new db_dir (some n)).db_size = n :=
  ⟨rfl, rfl, by decide, by decide, fun _ => rfl⟩

/-- C10: for every `ScabbardFactory::new(db_dir, db_size)`, regardless of the
arguments, `available_service_types()` is the one-element list holding the
scabbard `SERVICE_TYPE` string.  `create` takes the factory by shared
reference and returns only a result, so in the embedding no factory operation
can modify the list: it is fixed at construction, as the last conjunct states
by comparing arbitrary constructions. -/
theorem scabbard_factory_available_service_types_spec
    (db_dir : Option String) (db_size : Option Nat) :
    (ScabbardFactory.new db_dir db_size).available_service_types = [SERVICE_TYPE] ∧
    ((ScabbardFactory.new db_dir db_size).available_service_types).length = 1 ∧
    ∀ (db_dir' : Option String) (db_size' : Option Nat),
      (ScabbardFactory.new db_dir db_size).available_service_types =
        (ScabbardFactory.new db_dir' db_size').available_service_types :=
  ⟨rfl, rfl, fun _ _ => rfl⟩

/-- C4: `ScabbardFactory::create` returns `InvalidArguments` when the args map
has no `"admin_keys"` key or its value fails to parse as a JSON list of
strings; when parsing succeeds it returns either the constructed service or
`CreationFailed` wrapping the error from `Scabbard::new`. -/
theorem scabbard_factory_create_spec {ε σ : Type}
    (fromStr : String → Except String (List String))
    (scabbardNew : String → List String → String → Nat → List String → Except ε σ)
    (f : ScabbardFactory) (service_id : String) (peer_services : List String)
    (args : String → Option String) :
    (args "admin_keys" = none →
      f.create fromStr scabbardNew service_id peer_services args =
        Except.error (FactoryCreateError.invalidArguments
          "admin_keys argument not specified")) ∧
    (∀ s e, args "admin_keys" = some s → fromStr s = Except.error e →
      f.create fromStr scabbardNew service_id peer_services args =
        Except.error (FactoryCreateError.invalidArguments
          ("failed to parse admin_keys list: " ++ e))) ∧
    (∀ s keys, args "admin_keys" = some s → fromStr s = Except.ok keys →
      (∃ svc, f.create fromStr scabbardNew service_id peer_services args =
        Except.ok svc) ∨
      (∃ err, scabbardNew service_id peer_services f.db_dir f.db_size keys =
          Except.error err ∧
        f.create fromStr scabbardNew service_id peer_services args =
          Except.error (FactoryCreateError.creationFailed err))) := by
  refine ⟨fun h => ?_, fun s e hs he => ?_, fun s keys hs hk => ?_⟩
  · simp only [ScabbardFactory.create, h]
  · simp only [ScabbardFactory.create, hs, he]
  · cases hnew : scabbardNew service_id peer_services f.db_dir f.db_size keys with
    | ok svc =>
      exact Or.inl ⟨svc, by simp only [ScabbardFactory.create, hs, hk, hnew]⟩
    | error err =>
      exact Or.inr ⟨err, rfl, by simp only [ScabbardFactory.create, hs, hk, hnew]⟩

/-- C6: with `storage_type = Some("yaml")`, `SplinterDaemon::start` builds the
admin service store from exactly `state_dir/circuits.yaml` and
`state_dir/circuit_proposals.yaml`; any storage type other than `"yaml"` or
`"memory"` yields a `StartError::StorageError` (propagated with `?`, aborting
startup); the local registry is built from `state_dir/local_registry.yaml`. -/
theorem yaml_storage_layout_spec (state_dir : String)
    (localYamlRegistryNew : String → Except String Unit) :
    (adminServiceStoreSelection (some "yaml") state_dir =
      Except.ok (AdminServiceStoreConfig.yaml
        (pathJoin state_dir "circuits.yaml")
        (pathJoin state_dir "circuit_proposals.yaml"))) ∧
    (∀ storage, storage ≠ "yaml" → storage ≠ "memory" →
      adminServiceStoreSelection (some storage) state_dir =
        Except.error (StartError.storageError
          ("storage type is not supported: " ++ storage))) ∧
    (localYamlRegistryNew (pathJoin state_dir "local_registry.yaml") =
        Except.ok () →
      create_local_registry localYamlRegistryNew state_dir =
        Except.ok { file := pathJoin state_dir "local_registry.yaml" }) := by
  refine ⟨rfl, fun storage h1 h2 => ?_, fun h => ?_⟩
  · simp [adminServiceStoreSelection, h1, h2]
  · simp [create_local_registry, h]

/-- Witness for C6: evaluates the storage selection and registry construction
at a concrete state directory, exercising every part of
`yaml_storage_layout_spec`. -/
theorem yaml_storage_layout_spec_witness :
    (adminServiceStoreSelection (some "yaml") "/var/lib/splinter" =
      Except.ok (AdminServiceStoreConfig.yaml
        "/var/lib/splinter/circuits.yaml"
        "/var/lib/splinter/circuit_proposals.yaml")) ∧
    (adminServiceStoreSelection (some "sqlite") "/var/lib/splinter" =
      Except.error (StartError.storageError
        "storage type is not supported: sqlite")) ∧
    (create_local_registry (fun _ => Except.ok ()) "/var/lib/splinter" =
      Except.ok { file := "/var/lib/splinter/local_registry.yaml" }) :=
  ⟨(yaml_storage_layout_spec "/var/lib/splinter" (fun _ => Except.ok ())).1,
   (yaml_storage_layout_spec "/var/lib/splinter" (fun _ => Except.ok ())).2.1
      "sqlite" (by decide) (by decide),
   (yaml_storage_layout_spec "/var/lib/splinter" (fun _ => Except.ok ())).2.2 rfl⟩

/-- C7: `SplinterDaemonBuilder::build` fails with
`CreateError::MissingRequiredField` when any of heartbeat, node_id, state_dir,
network_endpoints, advertised_endpoints, initial_peers, display_name,
rest_api_endpoint, registry_auto_refresh, registry_forced_refresh or
strict_ref_counts is unset, and when all are set it returns a `SplinterDaemon`
carrying exactly the provided values (plus the pass-through `registries`,
`storage_type` and `admin_timeout`, and a fresh `Mesh::new(512, 128)`). -/
theorem splinter_daemon_builder_build_spec (b : SplinterDaemonBuilder) :
    ((b.heartbeat = none ∨ b.node_id = none ∨ b.state_dir = none ∨
      b.network_endpoints = none ∨ b.advertised_endpoints = none ∨
      b.initial_peers = none ∨ b.display_name = none ∨
      b.rest_api_endpoint = none ∨ b.registry_auto_refresh = none ∨
      b.registry_forced_refresh = none ∨ b.strict_ref_counts = none) →
      ∃ msg, b.build = Except.error (CreateError.missingRequiredField msg)) ∧
    (∀ hb nid sd ne ae ip dn re rar rfr src,
      b.heartbeat = some hb → b.node_id = some nid → b.state_dir = some sd →
      b.network_endpoints = some ne → b.advertised_endpoints = some ae →
      b.initial_peers = some ip → b.display_name = some dn →
      b.rest_api_endpoint = some re → b.registry_auto_refresh = some rar →
      b.registry_forced_refresh = some rfr → b.strict_ref_counts = some src →
      b.build = Except.ok
        { state_dir := sd, network_endpoints := ne, advertised_endpoints := ae,
          initial_peers := ip, mesh := Mesh.new 512 128, node_id := nid,
          display_name := dn, rest_api_endpoint := re,
          registries := b.registries, registry_auto_refresh := rar,
          registry_forced_refresh := rfr, storage_type := b.storage_type,
          admin_timeout := b.admin_timeout, heartbeat := hb,
          strict_ref_counts := src }) := by
  constructor
  · intro h
    rcases hhb : b.heartbeat with _ | hb
    · exact ⟨"Missing field: heartbeat", by simp [SplinterDaemonBuilder.build, hhb]⟩
    rcases hnid : b.node_id with _ | nid
    · exact ⟨"Missing field: node_id",
        by simp [SplinterDaemonBuilder.build, hhb, hnid]⟩
    rcases hsd : b.state_dir with _ | sd
    · exact ⟨"Missing field: state_dir",
        by simp [SplinterDaemonBuilder.build, hhb, hnid, hsd]⟩
    rcases hne : b.network_endpoints with _ | ne
    · exact ⟨"Missing field: network_endpoints",
        by simp [SplinterDaemonBuilder.build, hhb, hnid, hsd, hne]⟩
    rcases hae : b.advertised_endpoints with _ | ae
    · exact ⟨"Missing field: advertised_endpoints",
        by simp [SplinterDaemonBuilder.build, hhb, hnid, hsd, hne, hae]⟩
    rcases hip : b.initial_peers with _ | ip
    · exact ⟨"Missing field: initial_peers",
        by simp [SplinterDaemonBuilder.build, hhb, hnid, hsd, hne, hae, hip]⟩
    rcases hdn : b.display_name with _ | dn
    · exact ⟨"Missing field: display_name",
        by simp [SplinterDaemonBuilder.build, hhb, hnid, hsd, hne, hae, hip, hdn]⟩
    rcases hre : b.rest_api_endpoint with _ | re
    · exact ⟨"Missing field: rest_api_endpoint",
        by simp [SplinterDaemonBuilder.build, hhb, hnid, hsd, hne, hae, hip, hdn,
          hre]⟩
    rcases hrar : b.registry_auto_refresh with _ | rar
    · exact ⟨"Missing field: registry_auto_refresh",
        by simp [SplinterDaemonBuilder.build, hhb, hnid, hsd, hne, hae, hip, hdn,
          hre, hrar]⟩
    rcases hrfr : b.registry_forced_refresh with _ | rfr
    · exact ⟨"Missing field: registry_forced_refresh",
        by simp [SplinterDaemonBuilder.build, hhb, hnid, hsd, hne, hae, hip, hdn,
          hre, hrar, hrfr]⟩
    rcases hsrc : b.strict_ref_counts with _ | src
    · exact ⟨"Missing field: strict_ref_counts",
        by simp [SplinterDaemonBuilder.build, hhb, hnid, hsd, hne, hae, hip, hdn,
          hre, hrar, hrfr, hsrc]⟩
    simp_all
  · intro hb nid sd ne ae ip dn re rar rfr src h1 h2 h3 h4 h5 h6 h7 h8 h9 h10 h11
    simp [SplinterDaemonBuilder.build, h1, h2, h3, h4, h5, h6, h7, h8, h9, h10, h11]

/-- Witness for C7: a default builder is missing every required field and
fails; a fully populated builder yields a daemon carrying exactly the provided
values; both outcomes follow from `splinter_daemon_builder_build_spec`. -/
theorem splinter_daemon_builder_build_spec_witness :
    (∃ msg, ({} : SplinterDaemonBuilder).build =
      Except.error (CreateError.missingRequiredField msg)) ∧
    ({ heartbeat := some 30, node_id := some "n0",
       state_dir := some "/var/lib/splinter",
       network_endpoints := some ["tcp://127.0.0.1:8044"],
       advertised_endpoints := some ["tcp://127.0.0.1:8044"],
       initial_peers := some [], display_name := some "node zero",
       rest_api_endpoint := some "127.0.0.1:8080",
       registry_auto_refresh := some 600, registry_forced_refresh := some 7200,
       strict_ref_counts := some false, registries := ["file://registry.yaml"],
       storage_type := some "yaml",
       admin_timeout := 30 } : SplinterDaemonBuilder).build =
      Except.ok
        { state_dir := "/var/lib/splinter",
          network_endpoints := ["tcp://127.0.0.1:8044"],
          advertised_endpoints := ["tcp://127.0.0.1:8044"],
          initial_peers := [], mesh := Mesh.new 512 128, node_id := "n0",
          display_name := "node zero", rest_api_endpoint := "127.0.0.1:8080",
          registries := ["file://registry.yaml"], registry_auto_refresh := 600,
          registry_forced_refresh := 7200, storage_type := some "yaml",
          admin_timeout := 30, heartbeat := 30, strict_ref_counts := false } :=
  ⟨(splinter_daemon_builder_build_spec {}).1 (Or.inl rfl),
   (splinter_daemon_builder_build_spec _).2 30 "n0" "/var/lib/splinter"
      ["tcp://127.0.0.1:8044"] ["tcp://127.0.0.1:8044"] [] "node zero"
      "127.0.0.1:8080" 600 7200 false
      rfl rfl rfl rfl rfl rfl rfl rfl rfl rfl rfl⟩

/-- Oracle standing for an always-succeeding `Scabbard::new`, used only to
exercise `scabbard_factory_create_spec` on concrete inputs. -/
def alwaysOkScabbardNew (_service_id : String) (_peers : List String)
    (_db_dir : String) (_db_size : Nat) (_admin_keys : List String) :
    Except String Nat :=
  Except.ok 0

/-- Witness for C4: evaluates `create` on concrete inputs exercising all three
branches of `scabbard_factory_create_spec`. -/
theorem scabbard_factory_create_spec_witness :
    ((ScabbardFactory.new none none).create (fun _ => Except.ok [])
        alwaysOkScabbardNew "svc" [] (fun _ => none) =
      Except.error (FactoryCreateError.invalidArguments
        "admin_keys argument not specified")) ∧
    ((ScabbardFactory.new none none).create (fun _ => Except.error "bad json")
        alwaysOkScabbardNew "svc" [] (fun _ => some "not json") =
      Except.error (FactoryCreateError.invalidArguments
        "failed to parse admin_keys list: bad json")) ∧
    ((∃ svc, (ScabbardFactory.new none none).create (fun _ => Except.ok [])
        alwaysOkScabbardNew "svc" [] (fun _ => some "[]") = Except.ok svc) ∨
      (∃ err, alwaysOkScabbardNew "svc" []
            (ScabbardFactory.new none none).db_dir
            (ScabbardFactory.new none none).db_size [] = Except.error err ∧
        (ScabbardFactory.new none none).create (fun _ => Except.ok [])
          alwaysOkScabbardNew "svc" [] (fun _ => some "[]") =
            Except.error (FactoryCreateError.creationFailed err))) :=
  ⟨(scabbard_factory_create_spec (fun _ => Except.ok []) alwaysOkScabbardNew
      (ScabbardFactory.new none none) "svc" [] (fun _ => none)).1 rfl,
   (scabbard_factory_create_spec (fun _ => Except.error "bad json")
      alwaysOkScabbardNew
      (ScabbardFactory.new none none) "svc" [] (fun _ => some "not json")).2.1
      "not json" "bad json" rfl rfl,
   (scabbard_factory_create_spec (fun _ => Except.ok []) alwaysOkScabbardNew
      (ScabbardFactory.new none none) "svc" [] (fun _ => some "[]")).2.2
      "[]" [] rfl rfl⟩

/-- C8: with `force_create = false`, if the private or the public key file
already exists, `create_key_pair` returns `CliError::EnvironmentError` and
writes nothing: the filesystem after the call is exactly the filesystem
before it. -/
theorem create_key_pair_no_overwrite
    (fs : Fs) (key_dir private_key_path public_key_path : String)
    (change_permissions : Bool) (priv_hex : String)
    (getPublicKey : Except String String) (processOwner : Nat × Nat)
    (h : (fs.files private_key_path).isSome ∨ (fs.files public_key_path).isSome) :
    ∃ msg,
      create_key_pair fs key_dir private_key_path public_key_path false
          change_permissions priv_hex getPublicKey processOwner =
        (Except.error (CliError.environmentError msg), fs) := by
  rcases hp : fs.files private_key_path with _ | f
  · rcases h with h1 | h2
    · rw [hp] at h1
      simp at h1
    · rcases hq : fs.files public_key_path with _ | g
      · rw [hq] at h2
        simp at h2
      · exact ⟨"File already exists: " ++ public_key_path,
          by simp [create_key_pair, hp, hq]⟩
  · exact ⟨"File already exists: " ++ private_key_path,
      by simp [create_key_pair, hp]⟩

/-- Filesystem in which only the private key file `/keys/alice.priv` exists,
used to exercise `create_key_pair_no_overwrite`. -/
def examplePrivExistsFs : Fs :=
  { files := fun p =>
      if p = "/keys/alice.priv"
      then some { contents := "aa\n", mode := 0o640, owner := (0, 0) }
      else none,
    dirs := fun p => if p = "/keys" then some (0, 0) else none }

/-- Witness for C8: on a filesystem where the private key file exists and
`force_create = false`, `create_key_pair` errors and returns the filesystem
unchanged. -/
theorem create_key_pair_no_overwrite_witness :
    ∃ msg,
      create_key_pair examplePrivExistsFs "/keys" "/keys/alice.priv"
          "/keys/alice.pub" false true "bb" (Except.ok "cc") (0, 0) =
        (Except.error (CliError.environmentError msg), examplePrivExistsFs) :=
  create_key_pair_no_overwrite examplePrivExistsFs "/keys" "/keys/alice.priv"
    "/keys/alice.pub" true "bb" (Except.ok "cc") (0, 0) (Or.inl (by decide))

/-- C9: `GetUserByOAuthAuthorization::get` returns `Ok(None)` for every
authorization header that is not a Bearer OAuth2 token — without consulting
the session store (the result is the same for any two stores); for a Bearer
OAuth2 access token it returns `Ok(Some(user))` with the stored session's
user id exactly when the store holds a session for that token, `Ok(None)`
when it holds none, and `Err(InternalError)` only when the store lookup
itself fails. -/
theorem get_user_by_oauth_authorization_spec {ε : Type}
    (store store2 : String → Except ε (Option OAuthUserSession)) :
    (∀ authorization : AuthorizationHeader,
      (∀ t, authorization ≠ AuthorizationHeader.bearer (BearerToken.oauth2 t)) →
      GetUserByOAuthAuthorization.get store authorization = Except.ok none ∧
      GetUserByOAuthAuthorization.get store authorization =
        GetUserByOAuthAuthorization.get store2 authorization) ∧
    (∀ access_token session,
      store access_token = Except.ok (some session) →
      GetUserByOAuthAuthorization.get store
          (AuthorizationHeader.bearer (BearerToken.oauth2 access_token)) =
        Except.ok (some { user_id := session.user_id })) ∧
    (∀ access_token,
      store access_token = Except.ok none →
      GetUserByOAuthAuthorization.get store
          (AuthorizationHeader.bearer (BearerToken.oauth2 access_token)) =
        Except.ok none) ∧
    (∀ access_token e,
      store access_token = Except.error e →
      GetUserByOAuthAuthorization.get store
          (AuthorizationHeader.bearer (BearerToken.oauth2 access_token)) =
        Except.error (InternalError.fromSourceWithMessage e
          "Unable to load oauth session")) := by
  refine ⟨fun auth hne => ?_, fun tok s hs => ?_, fun tok hs => ?_,
    fun tok e hs => ?_⟩
  · cases auth with
    | bearer t =>
      cases t with
      | oauth2 tk => exact absurd rfl (hne tk)
      | other k tk => exact ⟨rfl, rfl⟩
    | custom s => exact ⟨rfl, rfl⟩
  · simp [GetUserByOAuthAuthorization.get, hs]
  · simp [GetUserByOAuthAuthorization.get, hs]
  · simp [GetUserByOAuthAuthorization.get, hs]

/-- Session store holding a session for `"tok1"`, an empty slot for `"tok2"`
and failing for every other token; used to exercise
`get_user_by_oauth_authorization_spec`. -/
def exampleSessionStore : String → Except String (Option OAuthUserSession) :=
  fun t =>
    if t = "tok1" then Except.ok (some { user_id := "user-1" })
    else if t = "tok2" then Except.ok none
    else Except.error "db down"

/-- Session store that fails on every lookup; used to exercise store
independence in `get_user_by_oauth_authorization_spec`. -/
def exampleFailingStore : String → Except String (Option OAuthUserSession) :=
  fun _ => Except.error "unreachable"

/-- Witness for C9: evaluates `get` on concrete headers against
`exampleSessionStore`, exercising every part of
`get_user_by_oauth_authorization_spec`. -/
theorem get_user_by_oauth_authorization_spec_witness :
    (GetUserByOAuthAuthorization.get exampleSessionStore
        (AuthorizationHeader.bearer (BearerToken.other "Cylinder" "xyz")) =
      Except.ok none ∧
     GetUserByOAuthAuthorization.get exampleSessionStore
        (AuthorizationHeader.bearer (BearerToken.other "Cylinder" "xyz")) =
      GetUserByOAuthAuthorization.get exampleFailingStore
        (AuthorizationHeader.bearer (BearerToken.other "Cylinder" "xyz"))) ∧
    (GetUserByOAuthAuthorization.get exampleSessionStore
        (AuthorizationHeader.bearer (BearerToken.oauth2 "tok1")) =
      Except.ok (some { user_id := "user-1" })) ∧
    (GetUserByOAuthAuthorization.get exampleSessionStore
        (AuthorizationHeader.bearer (BearerToken.oauth2 "tok2")) =
      Except.ok none) ∧
    (GetUserByOAuthAuthorization.get exampleSessionStore
        (AuthorizationHeader.bearer (BearerToken.oauth2 "tok3")) =
      Except.error (InternalError.fromSourceWithMessage "db down"
        "Unable to load oauth session")) :=
  ⟨(get_user_by_oauth_authorization_spec exampleSessionStore
      exampleFailingStore).1
      (AuthorizationHeader.bearer (BearerToken.other "Cylinder" "xyz"))
      (fun t => by simp),
   (get_user_by_oauth_authorization_spec exampleSessionStore
      exampleFailingStore).2.1 "tok1" { user_id := "user-1" } rfl,
   (get_user_by_oauth_authorization_spec exampleSessionStore
      exampleFailingStore).2.2.1 "tok2" rfl,
   (get_user_by_oauth_authorization_spec exampleSessionStore
      exampleFailingStore).2.2.2 "tok3" "db down" rfl⟩

end Splinter
